import Mathlib

/-!
Verification development for the finance-app Analysis & Alerting Engine
(`src/backend/financial_analysis.py`, `src/backend/financial_analysis_simple.py`,
`src/backend/alert_system.py`).

Embedding conventions:
* Python floats / decimals are modelled as rationals (`ℚ`); the literal `30.44`
  becomes `761/25`, `0.3` becomes `3/10`, `1.5` becomes `3/2`.
* Calendar dates are modelled as absolute day numbers (`ℤ`) where the code does
  day arithmetic (`timedelta`, `.days`), and as `(year, month, day)` records
  where the code inspects the month component or compares dates.
* Database queries against the transaction store are modelled either as explicit
  folds over a list of transaction rows (where the aggregation expression itself
  matters) or as pre-aggregated parameters (where only the resulting value
  matters); SQL `SUM`/`AVG` return `NULL` on empty input and the code coerces
  that to `0.0` with `or 0.0` / `if total`.
* Python dicts built in insertion order are modelled as lists in the same order.
-/

namespace FinanceApp

/-- A calendar date as stored on recurring transactions (`start_date`,
`end_date`): year, month, day with lexicographic comparison. -/
structure SDate where
  year : Int
  month : Nat
  day : Nat
deriving DecidableEq

/-- Lexicographic `<=` on calendar dates, as SQL compares `DATE` columns. -/
def SDate.le (a b : SDate) : Bool :=
  a.year < b.year ∨ (a.year = b.year ∧ (a.month < b.month ∨ (a.month = b.month ∧ a.day ≤ b.day)))

/-- `src/backend/alert_system.py` lines 11-19: the `AlertType` enumeration. -/
inductive AlertType
  | spendingLimitWarning
  | spendingLimitExceeded
  | goalBehindSchedule
  | goalDeadlineApproaching
  | lowBalanceProjection
  | unusualSpending
  | billReminder
  | positiveTrend
deriving DecidableEq

/-- `src/backend/alert_system.py` lines 21-25: the `AlertPriority` enumeration. -/
inductive AlertPriority
  | low
  | medium
  | high
  | critical
deriving DecidableEq

/-- `src/backend/alert_system.py` lines 27-37: an `Alert` value.  The
human-readable `title`/`message`/`action_url` strings are presentation only and
are not modelled; the structured numeric `data` payload is kept as an
association list from key to value, mirroring the Python dict. -/
structure Alert where
  alertType : AlertType
  priority : AlertPriority
  data : List (String × ℚ)
  isRead : Bool := false
deriving DecidableEq

/-- A `SpendingLimit` row for the current month together with the result of the
current-spent query for its category (`src/backend/alert_system.py` lines
93-105 / `financial_analysis.py` lines 73-85): the per-category expense sum
with SQL `NULL` already coerced to `0.0` by `or 0.0`. -/
structure LimitRow where
  categoryId : Int
  monthlyLimit : ℚ
  currentSpent : ℚ
deriving DecidableEq

/-! ## Spending Limit Monitor -/

/-- `percentage_used = (current_spent / monthly_limit) * 100 if monthly_limit > 0
else 0` (`alert_system.py` line 107, `financial_analysis.py` line 87,
`financial_analysis_simple.py` line 320). -/
def percentageUsed (limit spent : ℚ) : ℚ :=
  if limit > 0 then spent / limit * 100 else 0

/-- The classification implicit in the `if`/`elif` chain of
`AlertSystem._check_spending_limits` (`alert_system.py` lines 110-149):
`Exceeded` when `current_spent > monthly_limit`, else `Warning` when
`percentage_used >= 80`, else no alert (`OK`). -/
inductive LimitStatus
  | ok
  | warning
  | exceeded
deriving DecidableEq

/-- Status assigned to one limit row by `_check_spending_limits`
(`alert_system.py` lines 110-131). -/
def limitStatusOf (row : LimitRow) : LimitStatus :=
  if row.currentSpent > row.monthlyLimit then .exceeded
  else if percentageUsed row.monthlyLimit row.currentSpent ≥ 80 then .warning
  else .ok

/-- Alerts emitted for one limit row by `_check_spending_limits`
(`alert_system.py` lines 110-149): an `if`/`elif` chain, so at most one alert
per row. -/
def alertsForLimitRow (row : LimitRow) : List Alert :=
  let pct := percentageUsed row.monthlyLimit row.currentSpent
  if row.currentSpent > row.monthlyLimit then
    [{ alertType := .spendingLimitExceeded, priority := .high,
       data := [("limit", row.monthlyLimit), ("spent", row.currentSpent),
                ("excess", row.currentSpent - row.monthlyLimit), ("percentage", pct)] }]
  else if pct ≥ 80 then
    [{ alertType := .spendingLimitWarning, priority := .medium,
       data := [("limit", row.monthlyLimit), ("spent", row.currentSpent),
                ("remaining", row.monthlyLimit - row.currentSpent), ("percentage", pct)] }]
  else []

/-- `AlertSystem._check_spending_limits` over the list of limits of the current
month (`alert_system.py` lines 82-149): appends the per-row alerts in limit
order. -/
def checkSpendingLimits (rows : List LimitRow) : List Alert :=
  rows.flatMap alertsForLimitRow

/-- The status predicate exactly as claim C2 words it (spec §8, first bullet):
`Exceeded` iff `spent > limit`; `Warning` iff `80 <= percentageUsed < 100` and
not exceeded; otherwise `OK`.  Written from the claim, for comparison with
`limitStatusOf`, which is written from the source. -/
def claimLimitStatus (row : LimitRow) : LimitStatus :=
  let pct := percentageUsed row.monthlyLimit row.currentSpent
  if row.currentSpent > row.monthlyLimit then .exceeded
  else if 80 ≤ pct ∧ pct < 100 then .warning
  else .ok

/-! ## Projection Engine -/

/-- `FinancialAnalyzer._combine_projections` (`financial_analysis.py` lines
377-383): `recurring + historical * 0.3` when `recurring > 0`, else
`historical`. -/
def combineProjections (recurring historical : ℚ) : ℚ :=
  if recurring > 0 then recurring + historical * (3/10) else historical

/-- Blend policy (a) of spec §4.3, written from the spec's words for the C1
comparison. -/
def policyA (recurring historical : ℚ) : ℚ :=
  if recurring > 0 then recurring + (3/10) * historical else historical

/-- Blend policy (b) of spec §4.3, written from the spec's words for the C1
comparison. -/
def policyB (recurring historical : ℚ) : ℚ :=
  max recurring historical

/-- Per-target-month query results consumed by the projection engine of
`financial_analysis.py`: the recurring totals
(`_get_recurring_expenses_for_month` / `_get_recurring_income_for_month`) and
the historical same-calendar-month averages
(`_get_historical_average_expenses` / `_get_historical_average_income`) for one
target month.  The list of these, for offsets `1..months_ahead`, is in
chronological order because the loops in `project_future_expenses` /
`project_future_income` (lines 105, 135) iterate `month_offset` increasingly. -/
structure MonthInputs where
  year : Int
  month : Nat
  recurringExpenses : ℚ
  histExpenses : ℚ
  recurringIncome : ℚ
  histIncome : ℚ
deriving DecidableEq

/-- One month of `FinancialAnalyzer.project_future_expenses` output
(`financial_analysis.py` lines 101-129): `projected_total` blends via
`_combine_projections`. -/
structure ExpenseProjection where
  year : Int
  month : Nat
  recurringExpenses : ℚ
  historicalAverage : ℚ
  projectedTotal : ℚ
deriving DecidableEq

/-- One month of `FinancialAnalyzer.project_future_income` output
(`financial_analysis.py` lines 131-157): `projected_total = max(recurring_income,
historical_avg_income)` (line 146). -/
structure IncomeProjection where
  year : Int
  month : Nat
  recurringIncome : ℚ
  historicalAverage : ℚ
  projectedTotal : ℚ
deriving DecidableEq

/-- `FinancialAnalyzer.project_future_expenses` (`financial_analysis.py` lines
101-129), at the month grain over the per-month query results. -/
def projectFutureExpenses (ms : List MonthInputs) : List ExpenseProjection :=
  ms.map fun (mi : MonthInputs) =>
    { year := mi.year, month := mi.month,
      recurringExpenses := mi.recurringExpenses,
      historicalAverage := mi.histExpenses,
      projectedTotal := combineProjections mi.recurringExpenses mi.histExpenses }

/-- `FinancialAnalyzer.project_future_income` (`financial_analysis.py` lines
131-157), at the month grain over the per-month query results. -/
def projectFutureIncome (ms : List MonthInputs) : List IncomeProjection :=
  ms.map fun (mi : MonthInputs) =>
    { year := mi.year, month := mi.month,
      recurringIncome := mi.recurringIncome,
      historicalAverage := mi.histIncome,
      projectedTotal := max mi.recurringIncome mi.histIncome }

/-- `FinancialAnalyzer._calculate_projected_income` of the simple analyzer
(`financial_analysis_simple.py` lines 327-333): `max(historical_avg,
recurring_income)`. -/
def calculateProjectedIncomeSimple (historicalAvg recurringIncome : ℚ) : ℚ :=
  max historicalAvg recurringIncome

/-- `FinancialAnalyzer._calculate_projected_expenses` of the simple analyzer
(`financial_analysis_simple.py` lines 335-341): `max(historical_avg,
recurring_expenses)`. -/
def calculateProjectedExpensesSimple (historicalAvg recurringExpenses : ℚ) : ℚ :=
  max historicalAvg recurringExpenses

/-- Claim C1's per-month uniformity property, written from the claim's words:
for given expense and income projected totals computed from recurring/historical
pairs, either both follow policy (a) or both follow policy (b). -/
def uniformBlend (expTotal incTotal recE histE recI histI : ℚ) : Prop :=
  (expTotal = policyA recE histE ∧ incTotal = policyA recI histI) ∨
  (expTotal = policyB recE histE ∧ incTotal = policyB recI histI)

/-! ## Savings Capacity Calculator -/

/-- One month of `FinancialAnalyzer.calculate_savings_capacity` output
(`financial_analysis.py` lines 159-181). -/
structure SavingsMonth where
  year : Int
  month : Nat
  projectedIncome : ℚ
  projectedExpenses : ℚ
  projectedSavings : ℚ
  savingsRate : ℚ
deriving DecidableEq

/-- Chronological key of a projected month: months since year 0. -/
def SavingsMonth.key (m : SavingsMonth) : Int :=
  m.year * 12 + m.month

/-- `FinancialAnalyzer.calculate_savings_capacity` (`financial_analysis.py`
lines 159-181): pairs the income and expense projections month by month (the
code iterates the expense dict's keys and looks the income projection up by the
same `"YYYY-MM"` key; both dicts are built over the same offsets in the same
order, so this is a month-wise zip). -/
def calculateSavingsCapacity (ms : List MonthInputs) : List SavingsMonth :=
  ms.map fun (mi : MonthInputs) =>
    let inc := max mi.recurringIncome mi.histIncome
    let expTot := combineProjections mi.recurringExpenses mi.histExpenses
    let s := inc - expTot
    { year := mi.year, month := mi.month,
      projectedIncome := inc, projectedExpenses := expTot,
      projectedSavings := s,
      savingsRate := if inc > 0 then s / inc * 100 else 0 }

/-! ## Goal Tracker -/

/-- A `Goal` row (`src/models`, consumed by both analyzers and the alert
system): monetary fields plus `target_date` and `created_at.date()` as absolute
day numbers. -/
structure GoalRow where
  targetAmount : ℚ
  currentAmount : ℚ
  targetDate : Int
  createdDate : Int
deriving DecidableEq

/-- Average days per month used throughout the source: the literal `30.44`. -/
def daysPerMonth : ℚ := 761/25

/-- The per-goal fields computed by the simple analyzer's
`FinancialAnalyzer.get_goals_progress` (`financial_analysis_simple.py` lines
256-283) that carry numeric content (ids, names and ISO strings omitted). -/
structure GoalProgress where
  targetAmount : ℚ
  currentAmount : ℚ
  progressPercentage : ℚ
  remainingAmount : ℚ
  daysRemaining : Int
  monthsRemaining : ℚ
  monthlyNeeded : ℚ
deriving DecidableEq

/-- `FinancialAnalyzer.get_goals_progress` (`financial_analysis_simple.py`
lines 256-283): `months_remaining = max(0, days_remaining / 30.44)` (line 265),
`monthly_needed = remaining_amount / months_remaining if months_remaining > 0
else remaining_amount` (line 267). -/
def getGoalsProgress (goals : List GoalRow) (currentDate : Int) : List GoalProgress :=
  goals.map fun (g : GoalRow) =>
    let remaining := g.targetAmount - g.currentAmount
    let d : Int := g.targetDate - currentDate
    let m : ℚ := max 0 ((d : ℚ) / daysPerMonth)
    { targetAmount := g.targetAmount, currentAmount := g.currentAmount,
      progressPercentage :=
        if g.targetAmount > 0 then g.currentAmount / g.targetAmount * 100 else 0,
      remainingAmount := remaining, daysRemaining := d, monthsRemaining := m,
      monthlyNeeded := if m > 0 then remaining / m else remaining }

/-- The per-goal pacing fields computed by
`FinancialAnalyzer.analyze_goals_progress` (`financial_analysis.py` lines
183-217); the achievability comparison against the savings-capacity average is
outside claim C6 and omitted here. -/
structure GoalAnalysis where
  targetAmount : ℚ
  currentAmount : ℚ
  amountNeeded : ℚ
  daysRemaining : Int
  monthsRemaining : ℚ
  monthlySavingsNeeded : ℚ
  progressPercentage : ℚ
deriving DecidableEq

/-- `FinancialAnalyzer.analyze_goals_progress` (`financial_analysis.py` lines
183-217): `months_remaining = max(1, days_remaining / 30.44)` (line 190),
`monthly_savings_needed = amount_needed / months_remaining if months_remaining
> 0 else amount_needed` (line 193).  The dict reports
`round(months_remaining, 1)`; the raw value feeds the division, and the claim
is settled on the raw value. -/
def analyzeGoalsProgress (goals : List GoalRow) (currentDate : Int) : List GoalAnalysis :=
  goals.map fun (g : GoalRow) =>
    let d : Int := g.targetDate - currentDate
    let m : ℚ := max 1 ((d : ℚ) / daysPerMonth)
    let needed := g.targetAmount - g.currentAmount
    { targetAmount := g.targetAmount, currentAmount := g.currentAmount,
      amountNeeded := needed, daysRemaining := d, monthsRemaining := m,
      monthlySavingsNeeded := if m > 0 then needed / m else needed,
      progressPercentage :=
        if g.targetAmount > 0 then g.currentAmount / g.targetAmount * 100 else 0 }

/-- Python division raising `ZeroDivisionError` on a zero denominator, modelled
as `none`; used to settle the claim that guarded progress computations never
execute a division by zero. -/
def pyDiv (a b : ℚ) : Option ℚ :=
  if b = 0 then none else some (a / b)

/-- `goal.current_amount / goal.target_amount if goal.target_amount > 0 else 0`
(`alert_system.py` line 185), with the division's fallibility kept explicit via
`pyDiv`. -/
def actualProgressChecked (current target : ℚ) : Option ℚ :=
  if target > 0 then pyDiv current target else some 0

/-- `(goal.current_amount / goal.target_amount * 100) if goal.target_amount > 0
else 0` (`alert_system.py` line 161, `financial_analysis.py` line 212,
`financial_analysis_simple.py` line 262), with the division's fallibility kept
explicit via `pyDiv`. -/
def progressPercentageChecked (current target : ℚ) : Option ℚ :=
  if target > 0 then (pyDiv current target).map (· * 100) else some 0

/-! ## Alert Generator: goal alerts -/

/-- `AlertSystem._check_goals_progress` applied to one goal (`alert_system.py`
lines 155-207): a deadline-approaching alert and a behind-schedule alert are
checked independently (two separate `if` statements). -/
def alertsForGoal (g : GoalRow) (currentDate : Int) : List Alert :=
  let daysRemaining : Int := g.targetDate - currentDate
  let monthsRemaining : ℚ := max 0 ((daysRemaining : ℚ) / daysPerMonth)
  let deadline : List Alert :=
    if 0 < daysRemaining ∧ daysRemaining ≤ 30 then
      let progressPercentage :=
        if g.targetAmount > 0 then g.currentAmount / g.targetAmount * 100 else 0
      if progressPercentage < 90 then
        [{ alertType := .goalDeadlineApproaching, priority := .high,
           data := [("target_amount", g.targetAmount),
                    ("current_amount", g.currentAmount),
                    ("progress_percentage", progressPercentage),
                    ("days_remaining", (daysRemaining : ℚ))] }]
      else []
    else []
  let behind : List Alert :=
    if monthsRemaining > 0 then
      let totalMonths : ℚ := max 1 ((g.targetDate - g.createdDate : ℤ) / daysPerMonth)
      let idealProgress : ℚ := 1 - monthsRemaining / totalMonths
      let actualProgress : ℚ :=
        if g.targetAmount > 0 then g.currentAmount / g.targetAmount else 0
      if actualProgress < idealProgress - 1/10 then
        let amountNeeded := g.targetAmount - g.currentAmount
        let monthlyNeeded :=
          if monthsRemaining > 0 then amountNeeded / monthsRemaining else amountNeeded
        [{ alertType := .goalBehindSchedule, priority := .medium,
           data := [("ideal_progress", idealProgress * 100),
                    ("actual_progress", actualProgress * 100),
                    ("monthly_needed", monthlyNeeded),
                    ("months_remaining", monthsRemaining)] }]
      else []
    else []
  deadline ++ behind

/-- `AlertSystem._check_goals_progress` (`alert_system.py` lines 151-207). -/
def checkGoalsProgress (goals : List GoalRow) (currentDate : Int) : List Alert :=
  goals.flatMap (alertsForGoal · currentDate)

/-! ## Alert Generator: balance projections -/

/-- The alert built for a projected deficit month (`alert_system.py` lines
219-233). -/
def mkLowBalanceAlert (m : SavingsMonth) : Alert :=
  { alertType := .lowBalanceProjection, priority := .high,
    data := [("year", (m.year : ℚ)), ("month", (m.month : ℚ)),
             ("projected_income", m.projectedIncome),
             ("projected_expenses", m.projectedExpenses),
             ("projected_deficit", |m.projectedSavings|)] }

/-- The loop of `AlertSystem._check_balance_projections` (`alert_system.py`
lines 217-235): iterate the savings-capacity months in insertion order, emit an
alert for the first month with `projected_savings < 0`, then `break`. -/
def balanceProjectionLoop : List SavingsMonth → List Alert
  | [] => []
  | m :: rest =>
      if m.projectedSavings < 0 then [mkLowBalanceAlert m]
      else balanceProjectionLoop rest

/-- `AlertSystem._check_balance_projections` (`alert_system.py` lines 209-235):
runs the analyzer's `calculate_savings_capacity(3)` and scans it. -/
def checkBalanceProjections (ms : List MonthInputs) : List Alert :=
  balanceProjectionLoop (calculateSavingsCapacity ms)

/-! ## Alert Generator: unusual spending -/

/-- A `Transaction` row as read by `_check_unusual_spending`: the transaction
date as an absolute day number, the (non-negative) amount, and whether the type
is `EXPENSE`. -/
structure Txn where
  day : Int
  amount : ℚ
  isExpense : Bool
deriving DecidableEq

/-- Sum of the amounts of a list of transactions. -/
def txnSum (ts : List Txn) : ℚ :=
  (ts.map Txn.amount).sum

/-- The trailing-week expense-sum query of `_check_unusual_spending`
(`alert_system.py` lines 240-250): `SUM(amount)` over expenses with
`week_ago <= transaction_date <= current_date`, `NULL` coerced by `or 0.0`.
Here `week_ago = current_date - 7`. -/
def recentExpensesQuery (txns : List Txn) (currentDate : Int) : ℚ :=
  txnSum (txns.filter fun t =>
    t.isExpense ∧ currentDate - 7 ≤ t.day ∧ t.day ≤ currentDate)

/-- The historical rows of `_check_unusual_spending` (`alert_system.py` lines
253-263): expenses with `three_months_ago <= transaction_date < week_ago`. -/
def histExpenseRows (txns : List Txn) (currentDate threeMonthsAgo : Int) : List Txn :=
  txns.filter fun t =>
    t.isExpense ∧ threeMonthsAgo ≤ t.day ∧ t.day < currentDate - 7

/-- `AVG(amount)` over the historical rows (`alert_system.py` lines 255-263),
i.e. the mean amount per matching transaction, with SQL `NULL` on an empty row
set coerced to `0.0` by `or 0.0`; then `*= 7` (line 265). -/
def historicalWeeklyAvg (txns : List Txn) (currentDate threeMonthsAgo : Int) : ℚ :=
  let rows := histExpenseRows txns currentDate threeMonthsAgo
  (if rows.length = 0 then 0 else txnSum rows / rows.length) * 7

/-- The historical weekly-equivalent average exactly as claim C5 words it
(spec §8, unusual-spending scenario): the daily mean of expenses over the
historical window multiplied by 7.  Written from the claim, for comparison
with `historicalWeeklyAvg`, which is written from the source. -/
def claimDailyMeanWeeklyAvg (txns : List Txn) (currentDate threeMonthsAgo : Int) : ℚ :=
  let windowDays : Int := (currentDate - 7) - threeMonthsAgo
  (txnSum (histExpenseRows txns currentDate threeMonthsAgo) / windowDays) * 7

/-- The alert built by `_check_unusual_spending` when it fires
(`alert_system.py` lines 268-284). -/
def mkUnusualSpendingAlert (recent hist : ℚ) : Alert :=
  { alertType := .unusualSpending, priority := .medium,
    data := [("recent_expenses", recent), ("historical_average", hist),
             ("excess", recent - hist),
             ("percentage_increase", (recent / hist - 1) * 100)] }

/-- `AlertSystem._check_unusual_spending` (`alert_system.py` lines 237-284):
fires iff `recent_expenses > historical_weekly_avg * 1.5 and
historical_weekly_avg > 0` (line 268). -/
def checkUnusualSpending (txns : List Txn) (currentDate threeMonthsAgo : Int) : Option Alert :=
  let recent := recentExpensesQuery txns currentDate
  let hist := historicalWeeklyAvg txns currentDate threeMonthsAgo
  if recent > hist * (3/2) ∧ hist > 0 then
    some (mkUnusualSpendingAlert recent hist)
  else none

/-! ## Alert Generator: bill reminders and positive trends -/

/-- A `RecurringTransaction` row.  `start_date`/`end_date` are kept as calendar
records (their month component and date ordering matter to the schedule
evaluator); `next_occurrence` is kept as an absolute day number (the bill
reminder does day arithmetic on it).  `frequency` is the raw string column. -/
structure RecurRow where
  amount : ℚ
  isExpense : Bool
  isActive : Bool
  frequency : String
  startDate : SDate
  endDate : Option SDate
  nextOccurrence : Int
deriving DecidableEq

/-- `AlertSystem._check_bill_reminders` (`alert_system.py` lines 286-319): one
low-priority alert per active recurring expense whose `next_occurrence` lies in
`[current_date, current_date + 7]`.  (The `is_active`/type conditions are in
the SQL filter, lines 291-298.) -/
def checkBillReminders (recs : List RecurRow) (currentDate : Int) : List Alert :=
  (recs.filter fun r =>
      r.isActive ∧ r.isExpense ∧
      r.nextOccurrence ≤ currentDate + 7 ∧ currentDate ≤ r.nextOccurrence).map
    fun (r : RecurRow) =>
      { alertType := .billReminder, priority := .low,
        data := [("amount", r.amount),
                 ("days_until", ((r.nextOccurrence - currentDate : Int) : ℚ))] }

/-- `AlertSystem._check_positive_trends` (`alert_system.py` lines 321-366),
over the four period-aggregation query results it consumes: current
month-to-date income/expenses and the previous month's income/expenses over the
matching day-count window. -/
def checkPositiveTrends (curIncome curExpenses prevIncome prevExpenses : ℚ) : List Alert :=
  let currentSavings := curIncome - curExpenses
  let prevSavings := prevIncome - prevExpenses
  if currentSavings > prevSavings ∧ prevSavings > 0 then
    [{ alertType := .positiveTrend, priority := .low,
       data := [("current_savings", currentSavings),
                ("previous_savings", prevSavings),
                ("improvement", currentSavings - prevSavings),
                ("improvement_percentage",
                  if prevSavings > 0 then (currentSavings / prevSavings - 1) * 100 else 0)] }]
  else []

/-! ## Alert Generator: full pass, summary, mark-as-read -/

/-- The point-in-time snapshot one `generate_all_alerts` pass reads from the
transaction store: the current month's spending limits with their spent sums,
the active goals, the projection-engine query results for the three target
months (chronological), the raw transactions (for the unusual-spending
aggregations), the recurring transactions, and the four positive-trend
aggregates. -/
structure LedgerState where
  limits : List LimitRow
  goals : List GoalRow
  monthInputs : List MonthInputs
  txns : List Txn
  recurring : List RecurRow
  currentDate : Int
  threeMonthsAgo : Int
  curIncome : ℚ
  curExpenses : ℚ
  prevIncome : ℚ
  prevExpenses : ℚ

/-- `AlertSystem.generate_all_alerts` (`alert_system.py` lines 58-80): resets
the alert list and runs the six checks in order, each appending its alerts. -/
def generateAllAlerts (st : LedgerState) : List Alert :=
  checkSpendingLimits st.limits ++
  checkGoalsProgress st.goals st.currentDate ++
  checkBalanceProjections st.monthInputs ++
  (checkUnusualSpending st.txns st.currentDate st.threeMonthsAgo).toList ++
  checkBillReminders st.recurring st.currentDate ++
  checkPositiveTrends st.curIncome st.curExpenses st.prevIncome st.prevExpenses

/-- `AlertSystem.get_alerts_by_priority` (`alert_system.py` lines 368-370). -/
def getAlertsByPriority (alerts : List Alert) (p : AlertPriority) : List Alert :=
  alerts.filter fun a => decide (a.priority = p)

/-- `AlertSystem.get_unread_alerts_count` (`alert_system.py` lines 372-374). -/
def getUnreadAlertsCount (alerts : List Alert) : Nat :=
  (alerts.filter fun a => !a.isRead).length

/-- The numeric content of `AlertSystem.get_alerts_summary`'s return value
(`alert_system.py` lines 381-397). -/
structure AlertsSummary where
  total : Nat
  unread : Nat
  criticalCount : Nat
  highCount : Nat
  mediumCount : Nat
  lowCount : Nat
deriving DecidableEq

/-- `AlertSystem.get_alerts_summary` (`alert_system.py` lines 381-397). -/
def getAlertsSummary (alerts : List Alert) : AlertsSummary :=
  { total := alerts.length,
    unread := getUnreadAlertsCount alerts,
    criticalCount := (getAlertsByPriority alerts .critical).length,
    highCount := (getAlertsByPriority alerts .high).length,
    mediumCount := (getAlertsByPriority alerts .medium).length,
    lowCount := (getAlertsByPriority alerts .low).length }

/-- `alert.is_read = True` on one alert object. -/
def setRead (a : Alert) : Alert :=
  { a with isRead := true }

/-- `AlertSystem.mark_alert_as_read` (`alert_system.py` lines 376-379):
`if 0 <= alert_index < len(self.alerts): self.alerts[alert_index].is_read =
True` — a guarded in-place update, modelled as returning the updated list. -/
def markAlertAsRead (alerts : List Alert) (alertIndex : Int) : List Alert :=
  if h : 0 ≤ alertIndex ∧ alertIndex < (alerts.length : Int) then
    alerts.set alertIndex.toNat
      (setRead (alerts.get ⟨alertIndex.toNat, by omega⟩))
  else alerts

/-! ## Recurring Schedule Evaluator -/

/-- `FinancialAnalyzer._should_occur_in_month` (`financial_analysis.py` lines
321-330).  The `year` argument is accepted and ignored, as in the source. -/
def shouldOccurInMonth (r : RecurRow) (year : Int) (month : Nat) : Bool :=
  if r.frequency = "monthly" then true
  else if r.frequency = "yearly" then r.startDate.month == month
  else if r.frequency = "weekly" then true
  else false

/-- The SQL window filter of `_get_recurring_expenses_for_month`
(`financial_analysis.py` lines 279-289): active, of expense type,
`start_date <= date(year, month, 1)` and (`end_date IS NULL` or
`end_date >= date(year, month, 1)`). -/
def inRecurringWindow (r : RecurRow) (year : Int) (month : Nat) : Bool :=
  let target : SDate := ⟨year, month, 1⟩
  r.isActive && r.isExpense && r.startDate.le target &&
    (match r.endDate with
     | none => true
     | some e => target.le e)

/-- The recurring expenses that contribute to
`_get_recurring_expenses_for_month` for a target month (`financial_analysis.py`
lines 275-296): window-filtered rows for which `_should_occur_in_month`
holds. -/
def recurringExpensesOccurring (recs : List RecurRow) (year : Int) (month : Nat) :
    List RecurRow :=
  (recs.filter fun r => inRecurringWindow r year month).filter
    fun r => shouldOccurInMonth r year month

/-- `FinancialAnalyzer._get_recurring_expenses_for_month`
(`financial_analysis.py` lines 275-296): the summed amount over the
contributing rows. -/
def getRecurringExpensesForMonth (recs : List RecurRow) (year : Int) (month : Nat) : ℚ :=
  ((recurringExpensesOccurring recs year month).map RecurRow.amount).sum

/-! ## Health Score Calculator -/

/-- Python's `round(x, 1)`: round to the nearest tenth, ties to the even tenth
(IEEE round-half-to-even; all values reaching it here are exact in ℚ). -/
def roundHalfEvenInt (x : ℚ) : Int :=
  let f := ⌊x⌋
  let r := x - f
  if r < 1/2 then f
  else if 1/2 < r then f + 1
  else if 2 ∣ f then f else f + 1

/-- `round(total_score, 1)` (`financial_analysis.py` line 258). -/
def pyRound1 (x : ℚ) : ℚ :=
  (roundHalfEvenInt (10 * x) : ℚ) / 10

/-- The numeric content of a health-score result: the total and the four
factors. -/
structure HealthScore where
  totalScore : ℚ
  positiveBalance : ℚ
  spendingDiscipline : ℚ
  savingsFactor : ℚ
  incomeDiversification : ℚ
deriving DecidableEq

/-- Factor 1 of `get_financial_health_score` (`financial_analysis.py` lines
229-232): 25 points for a positive balance, else
`max(0, 25 + (partial_balance / 1000) * 5)`. -/
def balanceFactor (balancePart : ℚ) : ℚ :=
  if balancePart > 0 then 25 else max 0 (25 + balancePart / 1000 * 5)

/-- Factor 2 of `get_financial_health_score` (`financial_analysis.py` lines
235-239): `max(0, 25 - over_limit_count * 10)` when limits exist, neutral 15
otherwise; over-limit means `current_spent > monthly_limit` (line 96). -/
def disciplineFactor (limits : List LimitRow) : ℚ :=
  if limits ≠ [] then
    max 0 (25 - ((limits.countP fun r => decide (r.currentSpent > r.monthlyLimit)) : ℚ) * 10)
  else 15

/-- Factor 3 of `get_financial_health_score` (`financial_analysis.py` lines
242-249): banded by the first projected month's savings. -/
def savingsCapacityFactor (sc : List SavingsMonth) : ℚ :=
  match sc with
  | [] => 0
  | m :: _ => if m.projectedSavings > 0 then min 25 (m.projectedSavings / 1000 * 5) else 0

/-- Factor 4 of `get_financial_health_score` (`financial_analysis.py` lines
252-253): `min(25, income_sources * 8)`. -/
def diversificationFactor (incomeSources : Nat) : ℚ :=
  min 25 ((incomeSources : ℚ) * 8)

/-- `FinancialAnalyzer.get_financial_health_score` (`financial_analysis.py`
lines 219-262) over its query inputs: the current-month partial balance
(income minus expenses), the spending-limit rows (over-limit means
`current_spent > monthly_limit`, line 96), the projection inputs feeding
`calculate_savings_capacity(1)`, and `_count_income_sources()`;
`total_score = round(sum, 1)` (line 258). -/
def getFinancialHealthScore (balancePart : ℚ) (limits : List LimitRow)
    (ms : List MonthInputs) (incomeSources : Nat) : HealthScore :=
  { totalScore := pyRound1 (balanceFactor balancePart + disciplineFactor limits +
      savingsCapacityFactor (calculateSavingsCapacity ms) +
      diversificationFactor incomeSources),
    positiveBalance := balanceFactor balancePart,
    spendingDiscipline := disciplineFactor limits,
    savingsFactor := savingsCapacityFactor (calculateSavingsCapacity ms),
    incomeDiversification := diversificationFactor incomeSources }

/-- Positive-balance factor of the simple analyzer's `calculate_health_score`
(`financial_analysis_simple.py` lines 113-114): 25 or 0. -/
def balanceFactorSimple (balancePart : ℚ) : ℚ :=
  if balancePart > 0 then 25 else 0

/-- Savings-capacity factor of the simple `calculate_health_score`
(`financial_analysis_simple.py` lines 117-124): banded by
`savings_rate = partial_balance / total_income` when income is positive. -/
def savingsRateFactorSimple (balancePart totalIncome : ℚ) : ℚ :=
  if totalIncome > 0 then
    let rate := balancePart / totalIncome
    if rate ≥ 1/5 then 30
    else if rate ≥ 1/10 then 20
    else if rate > 0 then 10
    else 0
  else 0

/-- Spending-discipline factor of the simple `calculate_health_score`
(`financial_analysis_simple.py` lines 127-133): the within-limit fraction
scaled to 30 when limits exist, neutral 15 otherwise. -/
def disciplineFactorSimple (limits : List LimitRow) : ℚ :=
  if limits ≠ [] then
    ((limits.countP fun r => decide (r.currentSpent ≤ r.monthlyLimit)) : ℚ)
        / (limits.length : ℚ) * 30
  else 15

/-- Income-diversification factor of the simple `calculate_health_score`
(`financial_analysis_simple.py` lines 140-145): 15/10/5/0 by source count. -/
def diversificationFactorSimple (incomeSources : Nat) : ℚ :=
  if incomeSources ≥ 3 then 15
  else if incomeSources = 2 then 10
  else if incomeSources = 1 then 5
  else 0

/-- `FinancialAnalyzer.calculate_health_score` of the simple analyzer
(`financial_analysis_simple.py` lines 100-178) over its query inputs: the
current-month partial balance and total income, the spending-limit rows, and
the count of distinct income categories.  No rounding is applied to the
total. -/
def calculateHealthScoreSimple (balancePart totalIncome : ℚ)
    (limits : List LimitRow) (incomeSources : Nat) : HealthScore :=
  { totalScore := balanceFactorSimple balancePart +
      savingsRateFactorSimple balancePart totalIncome +
      disciplineFactorSimple limits + diversificationFactorSimple incomeSources,
    positiveBalance := balanceFactorSimple balancePart,
    spendingDiscipline := disciplineFactorSimple limits,
    savingsFactor := savingsRateFactorSimple balancePart totalIncome,
    incomeDiversification := diversificationFactorSimple incomeSources }

/-! ## Shared lemmas -/

lemma shouldOccurInMonth_yearly (r : RecurRow) (year : Int) (month : Nat)
    (h : r.frequency = "yearly") :
    shouldOccurInMonth r year month = (r.startDate.month == month) := by
  simp [shouldOccurInMonth, h]

/-! ## Claim theorems -/

/-- C7: the recurring-schedule evaluator reports that a Yearly item occurs in a
target month `m` of an in-window year if and only if the item's
`startDate.month` equals `m`; through `_get_recurring_expenses_for_month`, a
yearly item contributes to a target month exactly when it is in the query
window and its start month is the target month, and in no other month. -/
theorem yearly_item_occurs_iff_start_month (r : RecurRow) (year : Int) (month : Nat)
    (hfreq : r.frequency = "yearly") :
    (shouldOccurInMonth r year month = true ↔ r.startDate.month = month) ∧
    ∀ recs : List RecurRow,
      (r ∈ recurringExpensesOccurring recs year month ↔
        r ∈ recs ∧ inRecurringWindow r year month = true ∧ r.startDate.month = month) := by
  constructor
  · rw [shouldOccurInMonth_yearly r year month hfreq]
    simp
  · intro recs
    simp only [recurringExpensesOccurring, List.mem_filter,
      shouldOccurInMonth_yearly r year month hfreq]
    simp [and_assoc]

/-- Witness for C7 at a concrete yearly item starting in March: it occurs in
March of an in-window year, does not occur in April, and contributes to the
March recurring-expense query. -/
theorem yearly_item_occurs_iff_start_month_witness :
    shouldOccurInMonth ⟨100, true, true, "yearly", ⟨2020, 3, 15⟩, none, 0⟩ 2025 3 = true ∧
    shouldOccurInMonth ⟨100, true, true, "yearly", ⟨2020, 3, 15⟩, none, 0⟩ 2025 4 ≠ true ∧
    (⟨100, true, true, "yearly", ⟨2020, 3, 15⟩, none, 0⟩ : RecurRow) ∈
      recurringExpensesOccurring [⟨100, true, true, "yearly", ⟨2020, 3, 15⟩, none, 0⟩] 2025 3 := by
  refine ⟨?_, ?_, ?_⟩
  · exact (yearly_item_occurs_iff_start_month _ 2025 3 rfl).1.mpr rfl
  · intro h
    exact absurd ((yearly_item_occurs_iff_start_month _ 2025 4 rfl).1.mp h) (by decide)
  · exact ((yearly_item_occurs_iff_start_month _ 2025 3 rfl).2 _).mpr
      ⟨List.mem_singleton.mpr rfl, by decide, rfl⟩

/-- C8: for every goal with non-positive `targetAmount`, each progress
computation is short-circuited by the `targetAmount > 0` guard before the
division executes: the result is `0` and no `ZeroDivisionError` (modelled as
`none`) can occur, for any amounts whatsoever. -/
theorem goal_progress_guarded (current target : ℚ) :
    (actualProgressChecked current target).isSome = true ∧
    (progressPercentageChecked current target).isSome = true ∧
    (target ≤ 0 →
      actualProgressChecked current target = some 0 ∧
      progressPercentageChecked current target = some 0) := by
  unfold actualProgressChecked progressPercentageChecked pyDiv
  by_cases ht : target > 0
  · have hne : target ≠ 0 := ne_of_gt ht
    refine ⟨by simp [ht, hne], by simp [ht, hne], fun hle => absurd ht (not_lt.mpr hle)⟩
  · exact ⟨by simp [ht], by simp [ht], fun _ => by simp [ht]⟩

/-- Witness for C8 at `targetAmount = 0`: progress is `some 0`, not an
error. -/
theorem goal_progress_guarded_witness :
    actualProgressChecked 5 0 = some 0 ∧ progressPercentageChecked 5 0 = some 0 :=
  (goal_progress_guarded 5 0).2.2 (le_refl 0)

/-- C10: `mark_alert_as_read` never raises for any integer index; an
out-of-range index leaves the alert list unchanged, and an in-range index
changes only the `is_read` flag of the targeted alert, leaving its other fields
and every other alert untouched. -/
theorem markAlertAsRead_frame (alerts : List Alert) (i : Int) :
    (¬ (0 ≤ i ∧ i < (alerts.length : Int)) → markAlertAsRead alerts i = alerts) ∧
    ((0 ≤ i ∧ i < (alerts.length : Int)) →
      (markAlertAsRead alerts i).length = alerts.length ∧
      (∀ j : Nat, j ≠ i.toNat → (markAlertAsRead alerts i)[j]? = alerts[j]?) ∧
      ∃ a, alerts[i.toNat]? = some a ∧
        (markAlertAsRead alerts i)[i.toNat]? = some (setRead a) ∧
        (setRead a).alertType = a.alertType ∧ (setRead a).priority = a.priority ∧
        (setRead a).data = a.data ∧ (setRead a).isRead = true) := by
  constructor
  · intro h
    rw [markAlertAsRead, dif_neg h]
  · intro h
    have hlt : i.toNat < alerts.length := by omega
    rw [markAlertAsRead, dif_pos h]
    refine ⟨List.length_set .., fun j hj => List.getElem?_set_ne (Ne.symm hj), ?_⟩
    refine ⟨alerts.get ⟨i.toNat, hlt⟩, ?_, ?_, rfl, rfl, rfl, rfl⟩
    · rw [List.get_eq_getElem, List.getElem?_eq_getElem hlt]
    · exact List.getElem?_set_self hlt

/-- Witness for C10: an out-of-range index is a no-op, and an in-range index
flips exactly the targeted alert's `is_read` flag. -/
theorem markAlertAsRead_frame_witness :
    markAlertAsRead [{ alertType := .billReminder, priority := .low, data := [] }] 5 =
      [{ alertType := .billReminder, priority := .low, data := [] }] ∧
    (markAlertAsRead [{ alertType := .billReminder, priority := .low, data := [] },
                      { alertType := .positiveTrend, priority := .low, data := [] }] 0).length = 2 := by
  constructor
  · exact (markAlertAsRead_frame
      [{ alertType := .billReminder, priority := .low, data := [] }] 5).1 (by decide)
  · exact ((markAlertAsRead_frame
      [{ alertType := .billReminder, priority := .low, data := [] },
       { alertType := .positiveTrend, priority := .low, data := [] }] 0).2 (by decide)).1

/-- C2 counterexample: at `limit = 100`, `spent = 100` the code classifies
`Warning` (`percentage_used = 100 >= 80` and not exceeded), while the claim's
`80 <= percentageUsed < 100` condition classifies `OK`. -/
theorem limit_status_boundary_counterexample :
    limitStatusOf ⟨1, 100, 100⟩ = .warning ∧
    claimLimitStatus ⟨1, 100, 100⟩ = .ok ∧
    percentageUsed 100 100 = 100 := by
  refine ⟨?_, ?_, ?_⟩ <;>
    norm_num [limitStatusOf, claimLimitStatus, percentageUsed]

/-- C2 (amended): for every spending limit of the current month, the monitor
classifies `Exceeded` iff `spent > limit`, `Warning` iff `percentageUsed >= 80`
and not exceeded (so also at `percentageUsed = 100` exactly), and `OK`
otherwise, where `percentageUsed = spent/limit*100` when `limit > 0` and `0`
otherwise; exactly one status and at most one alert (of the matching type and
priority) is produced per limit per pass. -/
theorem limit_status_characterization (row : LimitRow) :
    (percentageUsed row.monthlyLimit row.currentSpent =
      if row.monthlyLimit > 0 then row.currentSpent / row.monthlyLimit * 100 else 0) ∧
    (limitStatusOf row = .exceeded ↔ row.currentSpent > row.monthlyLimit) ∧
    (limitStatusOf row = .warning ↔
      ¬ row.currentSpent > row.monthlyLimit ∧
        80 ≤ percentageUsed row.monthlyLimit row.currentSpent) ∧
    (limitStatusOf row = .ok ↔
      ¬ row.currentSpent > row.monthlyLimit ∧
        percentageUsed row.monthlyLimit row.currentSpent < 80) ∧
    (alertsForLimitRow row).length ≤ 1 ∧
    ((alertsForLimitRow row).map fun a => (a.alertType, a.priority)) =
      (match limitStatusOf row with
       | .exceeded => [(.spendingLimitExceeded, .high)]
       | .warning => [(.spendingLimitWarning, .medium)]
       | .ok => []) := by
  refine ⟨rfl, ?_⟩
  unfold limitStatusOf alertsForLimitRow
  split_ifs with h1 h2 <;>
    simp_all [not_le, le_of_lt]

/-- C1 counterexample: in `financial_analysis.py`, with `recurring = 100` and
`historical = 100` for both types in one target month, the expense projection
follows policy (a) (`130`) while the income projection follows policy (b)
(`100`): the two types mix policies within one implementation. -/
theorem projection_blend_mixed_counterexample :
    (projectFutureExpenses [⟨2025, 11, 100, 100, 100, 100⟩]).map
        ExpenseProjection.projectedTotal = [130] ∧
    (projectFutureIncome [⟨2025, 11, 100, 100, 100, 100⟩]).map
        IncomeProjection.projectedTotal = [100] ∧
    ¬ uniformBlend 130 100 100 100 100 100 := by
  refine ⟨?_, ?_, ?_⟩ <;>
    norm_num [projectFutureExpenses, projectFutureIncome, combineProjections,
      uniformBlend, policyA, policyB]

/-- C1 (amended): the two implementations fix their blend policies as follows —
`financial_analysis.py` mixes them, computing every expense `projected_total`
by policy (a) (`recurring + 0.3*historical` when `recurring > 0`, else
`historical`) and every income `projected_total` by policy (b)
(`max(recurring, historical)`), while `financial_analysis_simple.py` uniformly
applies policy (b) to both income and expense projections. -/
theorem projection_blend_policies (ms : List MonthInputs) (historicalAvg recurring : ℚ) :
    ((projectFutureExpenses ms).map ExpenseProjection.projectedTotal =
      ms.map fun mi => policyA mi.recurringExpenses mi.histExpenses) ∧
    ((projectFutureIncome ms).map IncomeProjection.projectedTotal =
      ms.map fun mi => policyB mi.recurringIncome mi.histIncome) ∧
    calculateProjectedIncomeSimple historicalAvg recurring = policyB recurring historicalAvg ∧
    calculateProjectedExpensesSimple historicalAvg recurring = policyB recurring historicalAvg := by
  refine ⟨?_, ?_, ?_, ?_⟩
  · simp only [projectFutureExpenses, List.map_map]
    exact List.map_congr_left fun mi _ => by
      simp [Function.comp, combineProjections, policyA, mul_comm]
  · simp only [projectFutureIncome, List.map_map]
    exact List.map_congr_left fun mi _ => rfl
  · exact max_comm _ _
  · exact max_comm _ _

/-- C6 counterexample: for a goal due in 15 days, `analyze_goals_progress`
(`financial_analysis.py` line 190) computes `months_remaining = max(1,
days_remaining / 30.44) = 1`, not `max(0, days_remaining / 30.44) =
15/30.44`. -/
theorem goal_months_remaining_counterexample :
    (analyzeGoalsProgress [⟨1000, 0, 1015, 900⟩] 1000).map
        GoalAnalysis.monthsRemaining = [1] ∧
    max 0 ((15 : ℚ) / daysPerMonth) = 375/761 ∧
    (1 : ℚ) ≠ 375/761 := by
  refine ⟨?_, ?_, ?_⟩ <;>
    norm_num [analyzeGoalsProgress, daysPerMonth]

/-- C6 (amended): in the simple analyzer's `get_goals_progress`, every goal's
`monthsRemaining` equals `max(0, daysRemaining/30.44)` and `monthlyNeeded`
equals `(targetAmount - currentAmount)/monthsRemaining` when `monthsRemaining >
0` and the full remaining amount otherwise; in `analyze_goals_progress` of
`financial_analysis.py`, `monthsRemaining` instead equals `max(1,
daysRemaining/30.44)`, which is always positive, so `monthlySavingsNeeded`
always divides by it. -/
theorem goal_months_remaining_formulas (goals : List GoalRow) (currentDate : Int) :
    (∀ p ∈ getGoalsProgress goals currentDate,
      p.monthsRemaining = max 0 ((p.daysRemaining : ℚ) / daysPerMonth) ∧
      p.remainingAmount = p.targetAmount - p.currentAmount ∧
      p.monthlyNeeded =
        (if p.monthsRemaining > 0 then p.remainingAmount / p.monthsRemaining
         else p.remainingAmount)) ∧
    (∀ q ∈ analyzeGoalsProgress goals currentDate,
      q.monthsRemaining = max 1 ((q.daysRemaining : ℚ) / daysPerMonth) ∧
      0 < q.monthsRemaining ∧
      q.monthlySavingsNeeded = q.amountNeeded / q.monthsRemaining) := by
  constructor
  · intro p hp
    simp only [getGoalsProgress, List.mem_map] at hp
    obtain ⟨g, _, rfl⟩ := hp
    exact ⟨rfl, rfl, rfl⟩
  · intro q hq
    simp only [analyzeGoalsProgress, List.mem_map] at hq
    obtain ⟨g, _, rfl⟩ := hq
    have hpos : (0:ℚ) < max 1 (((g.targetDate - currentDate : Int) : ℚ) / daysPerMonth) :=
      lt_of_lt_of_le one_pos (le_max_left 1 _)
    exact ⟨rfl, hpos, if_pos hpos⟩

/-- Witness for C6 (amended) at a concrete goal 61 days out: both analyzers'
pacing fields satisfy the amended formulas. -/
theorem goal_months_remaining_formulas_witness :
    ((getGoalsProgress [⟨1000, 250, 1061, 900⟩] 1000).all fun p =>
      decide (p.monthsRemaining = max 0 ((p.daysRemaining : ℚ) / daysPerMonth) ∧
        p.monthlyNeeded = p.remainingAmount / p.monthsRemaining)) = true ∧
    ((analyzeGoalsProgress [⟨1000, 250, 1061, 900⟩] 1000).all fun q =>
      decide (q.monthsRemaining = max 1 ((q.daysRemaining : ℚ) / daysPerMonth))) = true := by
  constructor
  · rw [List.all_eq_true]
    intro p hp
    have h := (goal_months_remaining_formulas [⟨1000, 250, 1061, 900⟩] 1000).1 p hp
    refine decide_eq_true ⟨h.1, ?_⟩
    rw [h.2.2, if_pos]
    · simp only [getGoalsProgress, List.mem_map] at hp
      obtain ⟨g, hg, rfl⟩ := hp
      simp only [List.mem_singleton] at hg
      subst hg
      norm_num [daysPerMonth]
  · rw [List.all_eq_true]
    intro q hq
    exact decide_eq_true
      ((goal_months_remaining_formulas [⟨1000, 250, 1061, 900⟩] 1000).2 q hq).1

/-- C5 counterexample: with one historical expense transaction of `100` (day
950) and a trailing-week total of `800` (day 995), seen from day 1000 with the
3-month window starting at day 910, the code's historical average is the mean
amount per transaction times 7 (`700`), so no alert fires (`800 <= 1.5*700`);
the claim's daily-mean reading gives `100/83*7 = 700/83`, under which the alert
would have to fire (`800 > 1.5*700/83 > 0`). -/
theorem unusual_spending_daily_mean_counterexample :
    checkUnusualSpending [⟨950, 100, true⟩, ⟨995, 800, true⟩] 1000 910 = none ∧
    historicalWeeklyAvg [⟨950, 100, true⟩, ⟨995, 800, true⟩] 1000 910 = 700 ∧
    claimDailyMeanWeeklyAvg [⟨950, 100, true⟩, ⟨995, 800, true⟩] 1000 910 = 700/83 ∧
    recentExpensesQuery [⟨950, 100, true⟩, ⟨995, 800, true⟩] 1000 = 800 ∧
    (0 : ℚ) < 700/83 ∧ (800 : ℚ) > (3/2) * (700/83) := by
  refine ⟨?_, ?_, ?_, ?_, by norm_num, by norm_num⟩ <;>
    norm_num [checkUnusualSpending, historicalWeeklyAvg, claimDailyMeanWeeklyAvg,
      recentExpensesQuery, histExpenseRows, txnSum, List.filter]

/-- C5 (amended): the UNUSUAL_SPENDING alert fires if and only if the
trailing-7-day expense total exceeds 1.5 times the historical weekly-equivalent
average of the prior 3 months, where the historical average is the mean amount
per expense transaction over that window (SQL `AVG(amount)`, zero when the
window is empty) multiplied by 7, and that historical average is strictly
positive; the alert's payload carries `excess = recent - historical` and
`percentage_increase = (recent/historical - 1)*100`. -/
theorem unusual_spending_characterization (txns : List Txn) (currentDate threeMonthsAgo : Int) :
    ((checkUnusualSpending txns currentDate threeMonthsAgo).isSome = true ↔
      recentExpensesQuery txns currentDate >
          historicalWeeklyAvg txns currentDate threeMonthsAgo * (3/2) ∧
        historicalWeeklyAvg txns currentDate threeMonthsAgo > 0) ∧
    ∀ a, checkUnusualSpending txns currentDate threeMonthsAgo = some a →
      a.data.lookup "excess" =
        some (recentExpensesQuery txns currentDate -
          historicalWeeklyAvg txns currentDate threeMonthsAgo) ∧
      a.data.lookup "percentage_increase" =
        some ((recentExpensesQuery txns currentDate /
          historicalWeeklyAvg txns currentDate threeMonthsAgo - 1) * 100) := by
  simp only [checkUnusualSpending]
  split_ifs with h
  · exact ⟨by simpa using h, fun a ha => by
      obtain rfl := Option.some_injective _ ha.symm
      simp [mkUnusualSpendingAlert, List.lookup]⟩
  · exact ⟨by simpa using h, fun a ha => by simp at ha⟩

/-- Witness for C5 (amended): a concrete ledger where the alert fires, with the
payload values given by the amended formulas. -/
theorem unusual_spending_characterization_witness :
    checkUnusualSpending [⟨950, 10, true⟩, ⟨995, 800, true⟩] 1000 910 =
      some (mkUnusualSpendingAlert 800 70) ∧
    (mkUnusualSpendingAlert 800 70).data.lookup "excess" = some 730 ∧
    (mkUnusualSpendingAlert 800 70).data.lookup "percentage_increase" = some (7300/7) := by
  have heq : checkUnusualSpending [⟨950, 10, true⟩, ⟨995, 800, true⟩] 1000 910 =
      some (mkUnusualSpendingAlert 800 70) := by
    norm_num [checkUnusualSpending, historicalWeeklyAvg, recentExpensesQuery,
      histExpenseRows, txnSum, List.filter]
  have h := (unusual_spending_characterization
    [⟨950, 10, true⟩, ⟨995, 800, true⟩] 1000 910).2 _ heq
  have hrec : recentExpensesQuery [⟨950, 10, true⟩, ⟨995, 800, true⟩] 1000 = 800 := by
    norm_num [recentExpensesQuery, txnSum, List.filter]
  have hhist : historicalWeeklyAvg [⟨950, 10, true⟩, ⟨995, 800, true⟩] 1000 910 = 70 := by
    norm_num [historicalWeeklyAvg, histExpenseRows, txnSum, List.filter]
  refine ⟨heq, ?_, ?_⟩
  · rw [h.1, hrec, hhist]; norm_num
  · rw [h.2, hrec, hhist]; norm_num

/-! ## Shared lemmas on the alert kinds each rule can emit -/

lemma checkSpendingLimits_kinds {a : Alert} {rows : List LimitRow}
    (h : a ∈ checkSpendingLimits rows) :
    (a.alertType = .spendingLimitExceeded ∧ a.priority = .high) ∨
    (a.alertType = .spendingLimitWarning ∧ a.priority = .medium) := by
  simp only [checkSpendingLimits, List.mem_flatMap] at h
  obtain ⟨row, _, hmem⟩ := h
  simp only [alertsForLimitRow] at hmem
  split_ifs at hmem <;> simp_all

lemma checkGoalsProgress_kinds {a : Alert} {goals : List GoalRow} {currentDate : Int}
    (h : a ∈ checkGoalsProgress goals currentDate) :
    (a.alertType = .goalDeadlineApproaching ∧ a.priority = .high) ∨
    (a.alertType = .goalBehindSchedule ∧ a.priority = .medium) := by
  simp only [checkGoalsProgress, List.mem_flatMap] at h
  obtain ⟨g, _, hmem⟩ := h
  simp only [alertsForGoal, List.mem_append] at hmem
  rcases hmem with hmem | hmem <;> split_ifs at hmem <;> simp_all

lemma balanceProjectionLoop_kinds {a : Alert} :
    ∀ {sc : List SavingsMonth}, a ∈ balanceProjectionLoop sc →
      a.alertType = .lowBalanceProjection ∧ a.priority = .high
  | [], h => by simp [balanceProjectionLoop] at h
  | m :: rest, h => by
    rw [balanceProjectionLoop] at h
    split_ifs at h
    · simp only [List.mem_singleton] at h
      subst h
      exact ⟨rfl, rfl⟩
    · exact balanceProjectionLoop_kinds h

lemma checkUnusualSpending_kinds {a : Alert} {txns : List Txn} {cd tma : Int}
    (h : a ∈ (checkUnusualSpending txns cd tma).toList) :
    a.alertType = .unusualSpending ∧ a.priority = .medium := by
  simp only [checkUnusualSpending] at h
  split_ifs at h <;> simp_all [mkUnusualSpendingAlert]

lemma checkBillReminders_kinds {a : Alert} {recs : List RecurRow} {cd : Int}
    (h : a ∈ checkBillReminders recs cd) :
    a.alertType = .billReminder ∧ a.priority = .low := by
  simp only [checkBillReminders, List.mem_map] at h
  obtain ⟨r, _, rfl⟩ := h
  exact ⟨rfl, rfl⟩

lemma checkPositiveTrends_kinds {a : Alert} {cI cE pI pE : ℚ}
    (h : a ∈ checkPositiveTrends cI cE pI pE) :
    a.alertType = .positiveTrend ∧ a.priority = .low := by
  simp only [checkPositiveTrends] at h
  split_ifs at h <;> simp_all

/-- Decomposition of one full `generate_all_alerts` pass: every emitted alert
comes from one of the six rules, with that rule's alert kind and priority. -/
lemma generateAllAlerts_kinds {a : Alert} {st : LedgerState}
    (h : a ∈ generateAllAlerts st) :
    (a.alertType = .spendingLimitExceeded ∧ a.priority = .high) ∨
    (a.alertType = .spendingLimitWarning ∧ a.priority = .medium) ∨
    (a.alertType = .goalDeadlineApproaching ∧ a.priority = .high) ∨
    (a.alertType = .goalBehindSchedule ∧ a.priority = .medium) ∨
    (a.alertType = .lowBalanceProjection ∧ a.priority = .high) ∨
    (a.alertType = .unusualSpending ∧ a.priority = .medium) ∨
    (a.alertType = .billReminder ∧ a.priority = .low) ∨
    (a.alertType = .positiveTrend ∧ a.priority = .low) := by
  simp only [generateAllAlerts, List.mem_append] at h
  rcases h with ((((h | h) | h) | h) | h) | h
  · rcases checkSpendingLimits_kinds h with h' | h'
    · exact Or.inl h'
    · exact Or.inr (Or.inl h')
  · rcases checkGoalsProgress_kinds h with h' | h'
    · exact Or.inr (Or.inr (Or.inl h'))
    · exact Or.inr (Or.inr (Or.inr (Or.inl h')))
  · exact Or.inr (Or.inr (Or.inr (Or.inr (Or.inl (balanceProjectionLoop_kinds h)))))
  · exact Or.inr (Or.inr (Or.inr (Or.inr (Or.inr (Or.inl (checkUnusualSpending_kinds h))))))
  · exact Or.inr (Or.inr (Or.inr (Or.inr (Or.inr (Or.inr (Or.inl (checkBillReminders_kinds h)))))))
  · exact Or.inr (Or.inr (Or.inr (Or.inr (Or.inr (Or.inr (Or.inr (checkPositiveTrends_kinds h)))))))

/-- The scan of `_check_balance_projections` emits at most one alert (the
`break` after the first deficit month). -/
lemma balanceProjectionLoop_length_le_one :
    ∀ sc : List SavingsMonth, (balanceProjectionLoop sc).length ≤ 1
  | [] => by simp [balanceProjectionLoop]
  | m :: rest => by
    rw [balanceProjectionLoop]
    split_ifs
    · simp
    · exact balanceProjectionLoop_length_le_one rest

/-- The scan of `_check_balance_projections` emits exactly the alert of the
first month (in list order) with negative projected savings, if any. -/
lemma balanceProjectionLoop_eq_find :
    ∀ sc : List SavingsMonth,
      balanceProjectionLoop sc =
        ((sc.find? fun m => decide (m.projectedSavings < 0)).map mkLowBalanceAlert).toList
  | [] => rfl
  | m :: rest => by
    rw [balanceProjectionLoop, List.find?_cons]
    by_cases h : m.projectedSavings < 0
    · simp [h]
    · simp [h, balanceProjectionLoop_eq_find rest]

/-- Chronological strict order on projected months. -/
def monthKeyLT (a b : SavingsMonth) : Prop := a.key < b.key

instance : IsTrans SavingsMonth monthKeyLT := ⟨fun _ _ _ h1 h2 => lt_trans h1 h2⟩

instance (a b : SavingsMonth) : Decidable (monthKeyLT a b) := Int.decLt _ _

/-- C4: in every `generate_all_alerts` pass, at most one LOW_BALANCE_PROJECTION
alert is emitted, and when one is emitted it is the alert of the
chronologically first projected month whose `projected_savings` is negative
(the savings months are produced in chronological order, stated here as the
`Chain'` hypothesis); later deficit months produce no alert. -/
theorem low_balance_first_deficit (st : LedgerState)
    (hchrono : (calculateSavingsCapacity st.monthInputs).Chain' monthKeyLT) :
    ((generateAllAlerts st).filter fun a =>
        decide (a.alertType = .lowBalanceProjection)).length ≤ 1 ∧
    ∀ a ∈ generateAllAlerts st, a.alertType = .lowBalanceProjection →
      ∃ m, m ∈ calculateSavingsCapacity st.monthInputs ∧
        m.projectedSavings < 0 ∧ a = mkLowBalanceAlert m ∧
        ∀ m' ∈ calculateSavingsCapacity st.monthInputs,
          m'.projectedSavings < 0 → m.key ≤ m'.key := by
  have hnil : ∀ (L : List Alert),
      (∀ a ∈ L, a.alertType ≠ AlertType.lowBalanceProjection) →
      (L.filter fun a => decide (a.alertType = .lowBalanceProjection)) = [] := by
    intro L hL
    exact List.filter_eq_nil_iff.mpr fun a ha => by simp [hL a ha]
  constructor
  · simp only [generateAllAlerts, List.filter_append, List.length_append]
    have h1 : (checkSpendingLimits st.limits).filter
        (fun a => decide (a.alertType = AlertType.lowBalanceProjection)) = [] :=
      hnil _ fun a ha => by
        rcases checkSpendingLimits_kinds ha with ⟨ht, -⟩ | ⟨ht, -⟩ <;> simp [ht]
    have h2 : (checkGoalsProgress st.goals st.currentDate).filter
        (fun a => decide (a.alertType = AlertType.lowBalanceProjection)) = [] :=
      hnil _ fun a ha => by
        rcases checkGoalsProgress_kinds ha with ⟨ht, -⟩ | ⟨ht, -⟩ <;> simp [ht]
    have h4 : ((checkUnusualSpending st.txns st.currentDate st.threeMonthsAgo).toList).filter
        (fun a => decide (a.alertType = AlertType.lowBalanceProjection)) = [] :=
      hnil _ fun a ha => by simp [(checkUnusualSpending_kinds ha).1]
    have h5 : (checkBillReminders st.recurring st.currentDate).filter
        (fun a => decide (a.alertType = AlertType.lowBalanceProjection)) = [] :=
      hnil _ fun a ha => by simp [(checkBillReminders_kinds ha).1]
    have h6 : (checkPositiveTrends st.curIncome st.curExpenses st.prevIncome
        st.prevExpenses).filter
        (fun a => decide (a.alertType = AlertType.lowBalanceProjection)) = [] :=
      hnil _ fun a ha => by simp [(checkPositiveTrends_kinds ha).1]
    rw [h1, h2, h4, h5, h6]
    simp only [List.length_nil]
    have hle := List.length_filter_le
      (fun a => decide (a.alertType = AlertType.lowBalanceProjection))
      (checkBalanceProjections st.monthInputs)
    have hloop := balanceProjectionLoop_length_le_one (calculateSavingsCapacity st.monthInputs)
    simp only [checkBalanceProjections] at hle ⊢
    omega
  · intro a ha htype
    simp only [generateAllAlerts, List.mem_append] at ha
    rcases ha with ((((ha | ha) | ha) | ha) | ha) | ha
    · rcases checkSpendingLimits_kinds ha with ⟨ht, _⟩ | ⟨ht, _⟩ <;> simp [ht] at htype
    · rcases checkGoalsProgress_kinds ha with ⟨ht, _⟩ | ⟨ht, _⟩ <;> simp [ht] at htype
    · rw [checkBalanceProjections, balanceProjectionLoop_eq_find] at ha
      cases hfind : (calculateSavingsCapacity st.monthInputs).find?
          fun m => decide (m.projectedSavings < 0) with
      | none => rw [hfind] at ha; simp at ha
      | some m =>
        rw [hfind] at ha
        simp only [Option.map_some', Option.toList_some, List.mem_singleton] at ha
        subst ha
        have hdef : m.projectedSavings < 0 := by simpa using List.find?_some hfind
        refine ⟨m, List.mem_of_find?_eq_some hfind, hdef, rfl, ?_⟩
        obtain ⟨-, as, bs, heq, hall⟩ := List.find?_eq_some.mp hfind
        have hpw : (calculateSavingsCapacity st.monthInputs).Pairwise monthKeyLT :=
          List.chain'_iff_pairwise.mp hchrono
        rw [heq] at hpw
        obtain ⟨-, hpw2, hcross⟩ := List.pairwise_append.mp hpw
        obtain ⟨hmbs, -⟩ := List.pairwise_cons.mp hpw2
        intro m' hm' hdef'
        rw [heq] at hm'
        rcases List.mem_append.mp hm' with hm' | hm'
        · have := hall m' hm'
          simp [hdef'] at this
        · rcases List.mem_cons.mp hm' with rfl | hm'
          · exact le_refl _
          · exact le_of_lt (hmbs m' hm')
    · rw [(checkUnusualSpending_kinds ha).1] at htype; simp at htype
    · rw [(checkBillReminders_kinds ha).1] at htype; simp at htype
    · rw [(checkPositiveTrends_kinds ha).1] at htype; simp at htype

/-- Witness for C4 at a concrete ledger state whose only projected month has a
100-unit deficit: the pass emits exactly that month's low-balance alert, and it
satisfies the first-deficit property. -/
theorem low_balance_first_deficit_witness :
    ((generateAllAlerts ⟨[], [], [⟨2025, 11, 0, 100, 0, 0⟩], [], [], 0, -90, 0, 0, 0, 0⟩).filter
        fun a => decide (a.alertType = .lowBalanceProjection)).length ≤ 1 ∧
    ∃ m, m ∈ calculateSavingsCapacity [⟨2025, 11, 0, 100, 0, 0⟩] ∧
      m.projectedSavings < 0 ∧
      mkLowBalanceAlert (⟨2025, 11, 0, 100, -100, 0⟩ : SavingsMonth) = mkLowBalanceAlert m := by
  have hchrono : (calculateSavingsCapacity
      ([⟨2025, 11, 0, 100, 0, 0⟩] : List MonthInputs)).Chain' monthKeyLT := by
    simp [calculateSavingsCapacity, combineProjections]
  have h := low_balance_first_deficit
    ⟨[], [], [⟨2025, 11, 0, 100, 0, 0⟩], [], [], 0, -90, 0, 0, 0, 0⟩ hchrono
  refine ⟨h.1, ?_⟩
  have hmem : mkLowBalanceAlert (⟨2025, 11, 0, 100, -100, 0⟩ : SavingsMonth) ∈
      generateAllAlerts ⟨[], [], [⟨2025, 11, 0, 100, 0, 0⟩], [], [], 0, -90, 0, 0, 0, 0⟩ := by
    norm_num [generateAllAlerts, checkSpendingLimits, checkGoalsProgress,
      checkBalanceProjections, calculateSavingsCapacity, combineProjections,
      balanceProjectionLoop, checkUnusualSpending, recentExpensesQuery,
      historicalWeeklyAvg, histExpenseRows, txnSum, checkBillReminders,
      checkPositiveTrends, List.filter]
  obtain ⟨m, hm, hdef, heq, -⟩ := h.2 _ hmem rfl
  exact ⟨m, hm, hdef, heq⟩

/-- C9: no alert-generation rule ever assigns the CRITICAL priority: after any
`generate_all_alerts` pass over any ledger state, every produced alert has
priority low, medium, or high, and the `critical` count in
`get_alerts_summary`'s by-priority breakdown is 0. -/
theorem no_critical_priority (st : LedgerState) :
    (∀ a ∈ generateAllAlerts st,
      a.priority = .low ∨ a.priority = .medium ∨ a.priority = .high) ∧
    (getAlertsSummary (generateAllAlerts st)).criticalCount = 0 := by
  have hall : ∀ a ∈ generateAllAlerts st,
      a.priority = .low ∨ a.priority = .medium ∨ a.priority = .high := by
    intro a ha
    rcases generateAllAlerts_kinds ha with
      ⟨_, hp⟩ | ⟨_, hp⟩ | ⟨_, hp⟩ | ⟨_, hp⟩ | ⟨_, hp⟩ | ⟨_, hp⟩ | ⟨_, hp⟩ | ⟨_, hp⟩ <;>
      simp [hp]
  refine ⟨hall, ?_⟩
  simp only [getAlertsSummary, getAlertsByPriority, List.length_eq_zero]
  rw [List.filter_eq_nil_iff]
  intro a ha
  rcases hall a ha with hp | hp | hp <;> simp [hp]

/-! ## Shared lemmas for the health-score bounds -/

lemma roundHalfEvenInt_bounds {x : ℚ} {n : Int} (h0 : 0 ≤ x) (hn : x ≤ (n : ℚ)) :
    0 ≤ roundHalfEvenInt x ∧ roundHalfEvenInt x ≤ n := by
  have hfx : (⌊x⌋ : ℚ) ≤ x := Int.floor_le x
  have hf0 : 0 ≤ ⌊x⌋ := Int.le_floor.mpr (by exact_mod_cast h0)
  have hfn : ⌊x⌋ ≤ n := by
    have h := Int.floor_le_floor hn
    simpa using h
  simp only [roundHalfEvenInt]
  split_ifs with h1 h2 h3
  · exact ⟨hf0, hfn⟩
  · refine ⟨by omega, ?_⟩
    by_contra hcon
    have hfeqn : ⌊x⌋ = n := by omega
    rw [hfeqn] at h2
    have : x ≤ (n : ℚ) + 1/2 := by linarith
    linarith
  · exact ⟨hf0, hfn⟩
  · refine ⟨by omega, ?_⟩
    by_contra hcon
    have hfeqn : ⌊x⌋ = n := by omega
    have hhalf : x - ⌊x⌋ = 1/2 := le_antisymm (not_lt.mp h2) (not_lt.mp h1)
    rw [hfeqn] at hhalf
    linarith

lemma pyRound1_bounds {x : ℚ} (h0 : 0 ≤ x) (h100 : x ≤ 100) :
    0 ≤ pyRound1 x ∧ pyRound1 x ≤ 100 := by
  have h := roundHalfEvenInt_bounds (x := 10 * x) (n := 1000)
    (by linarith) (by push_cast; linarith)
  unfold pyRound1
  constructor
  · exact div_nonneg (by exact_mod_cast h.1) (by norm_num)
  · rw [div_le_iff (by norm_num : (0:ℚ) < 10)]
    calc (roundHalfEvenInt (10 * x) : ℚ) ≤ 1000 := by exact_mod_cast h.2
      _ = 100 * 10 := by norm_num

lemma balanceFactor_bounds (b : ℚ) : 0 ≤ balanceFactor b ∧ balanceFactor b ≤ 25 := by
  unfold balanceFactor
  split_ifs with h
  · norm_num
  · refine ⟨le_max_left 0 _, max_le (by norm_num) ?_⟩
    have hb : b ≤ 0 := not_lt.mp h
    have h5 : b / 1000 * 5 = b * (1/200) := by ring
    nlinarith

lemma disciplineFactor_bounds (limits : List LimitRow) :
    0 ≤ disciplineFactor limits ∧ disciplineFactor limits ≤ 25 := by
  unfold disciplineFactor
  split_ifs with h
  · refine ⟨le_max_left 0 _, max_le (by norm_num) ?_⟩
    have hc : (0:ℚ) ≤ ((limits.countP fun r => decide (r.currentSpent > r.monthlyLimit)) : ℚ) :=
      Nat.cast_nonneg _
    nlinarith
  · norm_num

lemma savingsCapacityFactor_bounds (sc : List SavingsMonth) :
    0 ≤ savingsCapacityFactor sc ∧ savingsCapacityFactor sc ≤ 25 := by
  cases sc with
  | nil => simp [savingsCapacityFactor]
  | cons m rest =>
    simp only [savingsCapacityFactor]
    split_ifs with h
    · exact ⟨le_min (by norm_num) (by linarith), min_le_left _ _⟩
    · norm_num

lemma diversificationFactor_bounds (k : Nat) :
    0 ≤ diversificationFactor k ∧ diversificationFactor k ≤ 25 := by
  unfold diversificationFactor
  exact ⟨le_min (by norm_num) (by positivity), min_le_left _ _⟩

lemma balanceFactorSimple_bounds (b : ℚ) :
    0 ≤ balanceFactorSimple b ∧ balanceFactorSimple b ≤ 25 := by
  unfold balanceFactorSimple
  split_ifs <;> norm_num

lemma savingsRateFactorSimple_bounds (b inc : ℚ) :
    0 ≤ savingsRateFactorSimple b inc ∧ savingsRateFactorSimple b inc ≤ 30 := by
  simp only [savingsRateFactorSimple]
  split_ifs <;> norm_num

lemma disciplineFactorSimple_bounds (limits : List LimitRow) :
    0 ≤ disciplineFactorSimple limits ∧ disciplineFactorSimple limits ≤ 30 := by
  unfold disciplineFactorSimple
  split_ifs with h
  · have hlen : (0:ℚ) < (limits.length : ℚ) := by
      have : limits.length ≠ 0 := fun hz => h (List.length_eq_zero.mp hz)
      exact_mod_cast Nat.pos_of_ne_zero this
    have hcle : ((limits.countP fun r => decide (r.currentSpent ≤ r.monthlyLimit)) : ℚ) ≤
        (limits.length : ℚ) := by
      exact_mod_cast List.countP_le_length _
    have hc0 : (0:ℚ) ≤ ((limits.countP fun r => decide (r.currentSpent ≤ r.monthlyLimit)) : ℚ) :=
      Nat.cast_nonneg _
    constructor
    · positivity
    · have hratio := (div_le_one hlen).mpr hcle
      nlinarith
  · norm_num

lemma diversificationFactorSimple_bounds (k : Nat) :
    0 ≤ diversificationFactorSimple k ∧ diversificationFactorSimple k ≤ 15 := by
  unfold diversificationFactorSimple
  split_ifs <;> norm_num

/-- C3: for every input state — including zero income, zero defined spending
limits, and zero distinct income categories — the health score's `total_score`
lies in `[0, 100]` and each of the four factors is non-negative and capped at
its weight, in both implementations (weights 25/25/25/25 in
`financial_analysis.py` and 25/30/30/15 in `financial_analysis_simple.py`). -/
theorem health_score_in_range (balancePart totalIncome : ℚ) (limits : List LimitRow)
    (ms : List MonthInputs) (incomeSources : Nat) :
    (0 ≤ (getFinancialHealthScore balancePart limits ms incomeSources).totalScore ∧
     (getFinancialHealthScore balancePart limits ms incomeSources).totalScore ≤ 100 ∧
     0 ≤ (getFinancialHealthScore balancePart limits ms incomeSources).positiveBalance ∧
     (getFinancialHealthScore balancePart limits ms incomeSources).positiveBalance ≤ 25 ∧
     0 ≤ (getFinancialHealthScore balancePart limits ms incomeSources).spendingDiscipline ∧
     (getFinancialHealthScore balancePart limits ms incomeSources).spendingDiscipline ≤ 25 ∧
     0 ≤ (getFinancialHealthScore balancePart limits ms incomeSources).savingsFactor ∧
     (getFinancialHealthScore balancePart limits ms incomeSources).savingsFactor ≤ 25 ∧
     0 ≤ (getFinancialHealthScore balancePart limits ms incomeSources).incomeDiversification ∧
     (getFinancialHealthScore balancePart limits ms incomeSources).incomeDiversification ≤ 25) ∧
    (0 ≤ (calculateHealthScoreSimple balancePart totalIncome limits incomeSources).totalScore ∧
     (calculateHealthScoreSimple balancePart totalIncome limits incomeSources).totalScore ≤ 100 ∧
     0 ≤ (calculateHealthScoreSimple balancePart totalIncome limits incomeSources).positiveBalance ∧
     (calculateHealthScoreSimple balancePart totalIncome limits incomeSources).positiveBalance ≤ 25 ∧
     0 ≤ (calculateHealthScoreSimple balancePart totalIncome limits incomeSources).spendingDiscipline ∧
     (calculateHealthScoreSimple balancePart totalIncome limits incomeSources).spendingDiscipline ≤ 30 ∧
     0 ≤ (calculateHealthScoreSimple balancePart totalIncome limits incomeSources).savingsFactor ∧
     (calculateHealthScoreSimple balancePart totalIncome limits incomeSources).savingsFactor ≤ 30 ∧
     0 ≤ (calculateHealthScoreSimple balancePart totalIncome limits incomeSources).incomeDiversification ∧
     (calculateHealthScoreSimple balancePart totalIncome limits incomeSources).incomeDiversification ≤ 15) := by
  have h1 := balanceFactor_bounds balancePart
  have h2 := disciplineFactor_bounds limits
  have h3 := savingsCapacityFactor_bounds (calculateSavingsCapacity ms)
  have h4 := diversificationFactor_bounds incomeSources
  have hsum := pyRound1_bounds
    (x := balanceFactor balancePart + disciplineFactor limits +
      savingsCapacityFactor (calculateSavingsCapacity ms) + diversificationFactor incomeSources)
    (by linarith [h1.1, h2.1, h3.1, h4.1]) (by linarith [h1.2, h2.2, h3.2, h4.2])
  have s1 := balanceFactorSimple_bounds balancePart
  have s2 := disciplineFactorSimple_bounds limits
  have s3 := savingsRateFactorSimple_bounds balancePart totalIncome
  have s4 := diversificationFactorSimple_bounds incomeSources
  simp only [getFinancialHealthScore, calculateHealthScoreSimple]
  refine ⟨⟨hsum.1, hsum.2, h1.1, h1.2, h2.1, h2.2, h3.1, h3.2, h4.1, h4.2⟩,
    ⟨by linarith [s1.1, s2.1, s3.1, s4.1], by linarith [s1.2, s2.2, s3.2, s4.2],
     s1.1, s1.2, s2.1, s2.2, s3.1, s3.2, s4.1, s4.2⟩⟩

end FinanceApp
